import Mathlib

/-!
Verification of the record-parsing and statistics-aggregation core of the
Aether visualization scripts (`scripts/visualize_elo_test.py` and
`scripts/visualize_results.py`), as a shallow embedding in Lean.

Python dictionaries keyed by player name are embedded as total functions
`String → _`; the scripts only ever read them at keys drawn from the
supplied player list, and every claim below quantifies over such keys only.
Python floats are embedded as rationals: all quantities involved are finite
sums of halves, so the order and equality facts proved here are exact.
-/

namespace Aether

/-- One parsed game record (dataclass `GameResult` in `visualize_elo_test.py`).
The result is kept as the raw string, exactly as in the source. -/
structure GameResult where
  white : String
  black : String
  result : String
  termination : String := ""
  ply_count : Nat := 0
  time_control : String := ""
  opening_fen : String := ""
deriving DecidableEq

/-- Per-player tally (dataclass `PlayerStats` in `visualize_elo_test.py`). -/
structure PlayerStats where
  name : String
  wins : Nat := 0
  losses : Nat := 0
  draws : Nat := 0
  total_plies : Nat := 0
  games_with_plies : Nat := 0
deriving DecidableEq

/-- Property `PlayerStats.games`: wins + losses + draws. -/
def PlayerStats.games (s : PlayerStats) : Nat :=
  s.wins + s.losses + s.draws

/-- Property `PlayerStats.score`: wins + 0.5 * draws. -/
def PlayerStats.score (s : PlayerStats) : ℚ :=
  (s.wins : ℚ) + (1 / 2) * (s.draws : ℚ)

/-- Property `PlayerStats.score_percent`: 0 when no games, else score/games*100. -/
def PlayerStats.score_percent (s : PlayerStats) : ℚ :=
  if s.games = 0 then 0 else (s.score / (s.games : ℚ)) * 100

/-- Property `PlayerStats.win_percent`: 0 when no games, else wins/games*100. -/
def PlayerStats.win_percent (s : PlayerStats) : ℚ :=
  if s.games = 0 then 0 else ((s.wins : ℚ) / (s.games : ℚ)) * 100

/-- Property `PlayerStats.avg_game_length`. -/
def PlayerStats.avg_game_length (s : PlayerStats) : ℚ :=
  if s.games_with_plies = 0 then 0
  else (s.total_plies : ℚ) / (s.games_with_plies : ℚ)

/-- One cell of the head-to-head matrix: the inner dict
`{'wins': 0, 'draws': 0, 'losses': 0}` of `calculate_head_to_head`. -/
structure H2HCell where
  wins : Nat := 0
  draws : Nat := 0
  losses : Nat := 0
deriving DecidableEq

/-- The all-zero cell every matrix entry is initialised to. -/
def H2HCell.zero : H2HCell := {}

/-- The head-to-head matrix, embedding the dict-of-dicts of
`calculate_head_to_head`; it is only ever read at keys from the player list. -/
abbrev H2HMatrix := String → String → H2HCell

/-- Pointwise update of one matrix cell, embedding
`results[p][q][field] += 1` style mutation. -/
def h2hUpdate (m : H2HMatrix) (p q : String) (f : H2HCell → H2HCell) : H2HMatrix :=
  fun a b => if a = p ∧ b = q then f (m a b) else m a b

/-- The body of the `for game in games` loop of `calculate_head_to_head`
(lines 178-191): skip games whose players are not both in `players`, then
update the two mirrored cells sequentially, exactly as the source does.
A result string other than the three literals updates nothing. -/
def h2hStep (players : List String) (m : H2HMatrix) (g : GameResult) : H2HMatrix :=
  if g.white ∈ players ∧ g.black ∈ players then
    if g.result = "1-0" then
      h2hUpdate (h2hUpdate m g.white g.black (fun c => {c with wins := c.wins + 1}))
        g.black g.white (fun c => {c with losses := c.losses + 1})
    else if g.result = "0-1" then
      h2hUpdate (h2hUpdate m g.white g.black (fun c => {c with losses := c.losses + 1}))
        g.black g.white (fun c => {c with wins := c.wins + 1})
    else if g.result = "1/2-1/2" then
      h2hUpdate (h2hUpdate m g.white g.black (fun c => {c with draws := c.draws + 1}))
        g.black g.white (fun c => {c with draws := c.draws + 1})
    else m
  else m

/-- Embeds `calculate_head_to_head(games, players)` (lines 173-192). -/
def calculate_head_to_head (games : List GameResult) (players : List String) : H2HMatrix :=
  games.foldl (h2hStep players) (fun _ _ => H2HCell.zero)

/-- Fresh stats record `PlayerStats(name=p)`. -/
def PlayerStats.init (p : String) : PlayerStats := { name := p }

/-- Pointwise update of one player's stats, embedding `stats[p] = f(stats[p])`. -/
def statsUpdate (m : String → PlayerStats) (p : String) (f : PlayerStats → PlayerStats) :
    String → PlayerStats :=
  fun q => if q = p then f (m q) else m q

/-- White side of the result dispatch in `calculate_overall_stats`
(lines 201-206): "1-0" a win, "0-1" a loss, anything else a draw. -/
def applyResultWhite (g : GameResult) (s : PlayerStats) : PlayerStats :=
  if g.result = "1-0" then {s with wins := s.wins + 1}
  else if g.result = "0-1" then {s with losses := s.losses + 1}
  else {s with draws := s.draws + 1}

/-- Black side of the result dispatch (lines 213-218). -/
def applyResultBlack (g : GameResult) (s : PlayerStats) : PlayerStats :=
  if g.result = "0-1" then {s with wins := s.wins + 1}
  else if g.result = "1-0" then {s with losses := s.losses + 1}
  else {s with draws := s.draws + 1}

/-- Ply accumulation (lines 208-210 resp. 220-222): only games with a
positive ply count contribute. -/
def applyPlies (g : GameResult) (s : PlayerStats) : PlayerStats :=
  if g.ply_count > 0 then
    {s with total_plies := s.total_plies + g.ply_count,
            games_with_plies := s.games_with_plies + 1}
  else s

/-- The body of the `for game in games` loop of `calculate_overall_stats`
(lines 199-222): the white side is updated first, then the black side reads
the already-updated map, exactly as the sequential Python mutation does. -/
def overallStep (players : List String) (m : String → PlayerStats) (g : GameResult) :
    String → PlayerStats :=
  let m1 := if g.white ∈ players then
    statsUpdate m g.white (fun s => applyPlies g (applyResultWhite g s)) else m
  if g.black ∈ players then
    statsUpdate m1 g.black (fun s => applyPlies g (applyResultBlack g s)) else m1

/-- Embeds `calculate_overall_stats(games, players)` (lines 195-224). -/
def calculate_overall_stats (games : List GameResult) (players : List String) :
    String → PlayerStats :=
  games.foldl (overallStep players) PlayerStats.init

/-- Embeds `get_all_players` (lines 164-170): the set of all white/black
names, sorted ascending. -/
def get_all_players (games : List GameResult) : List String :=
  ((games.foldl (fun acc g => (acc.insert g.white).insert g.black) ([] : List String)).mergeSort
    (fun a b => decide (a ≤ b)))

/-- Total games in one head-to-head cell, as computed at lines 313 and 459:
`r['wins'] + r['draws'] + r['losses']`. -/
def cellTotal (c : H2HCell) : Nat := c.wins + c.draws + c.losses

/-- Embeds the matrix-entry computation of `plot_head_to_head_heatmap`
(lines 307-317): the diagonal is fixed at 50; off the diagonal the cell's
score percentage when at least one game was played, else 50. -/
def heatmap_value (games : List GameResult) (algorithms : List String) (i j : Nat) : ℚ :=
  if i = j then 50
  else
    let r := calculate_head_to_head games algorithms (algorithms.getD i "") (algorithms.getD j "")
    if cellTotal r > 0 then
      (((r.wins : ℚ) + (1 / 2) * (r.draws : ℚ)) / (cellTotal r : ℚ)) * 100
    else 50

/-- Embeds line 672 of `generate_summary_report`:
`sorted(algorithms, key=lambda x: stats[x].score_percent, reverse=True)`.
Python's sort is stable and `reverse=True` preserves the original order of
elements with equal keys, which is exactly stable `mergeSort` with the
comparison "b's key does not exceed a's key". -/
def sorted_algos (stats : String → PlayerStats) (algorithms : List String) : List String :=
  algorithms.mergeSort (fun a b => decide ((stats b).score_percent ≤ (stats a).score_percent))

/-- Embeds line 705: `best_algo = sorted_algos[0]`. -/
def best_algo (stats : String → PlayerStats) (algorithms : List String) : String :=
  (sorted_algos stats algorithms).headI

/-- Embeds line 706: `worst_algo = sorted_algos[-1]`. -/
def worst_algo (stats : String → PlayerStats) (algorithms : List String) : String :=
  (sorted_algos stats algorithms).getLastD ""

/-- One tagged-log block of `parse_pgn`, abstracted as its bracketed
`[Key "Value"]` tags in order of appearance. Tag values are taken
quote-free, as the regex character class `[^"]+` demands. -/
structure PGNBlock where
  tags : List (String × String)
deriving DecidableEq

/-- Embeds `re.search(r'\[Key "([^"]+)"\]', block)` (lines 142-148): the
first tag with the given key and a nonempty value; `[^"]+` requires at
least one character, so an empty-valued tag never matches. -/
def findTag (b : PGNBlock) (k : String) : Option String :=
  ((b.tags.find? (fun t => t.1 = k ∧ t.2 ≠ "")).map (fun t => t.2))

/-- Embeds `re.search(r'\[PlyCount "(\d+)"\]', block)` (line 146): the first
PlyCount tag whose value is a nonempty digit string, read as a number. -/
def findPly (b : PGNBlock) : Option Nat :=
  ((b.tags.find? (fun t => t.1 = "PlyCount" ∧ t.2 ≠ "" ∧ t.2.all Char.isDigit)).map
    (fun t => t.2)).bind String.toNat?

/-- Embeds the per-block acceptance test of `parse_pgn` (lines 150-159): a
block yields a record only when White, Black and Result all matched; every
optional field defaults to the empty string or 0 when absent. -/
def parseBlock (b : PGNBlock) : Option GameResult :=
  match findTag b "White", findTag b "Black", findTag b "Result" with
  | some w, some bl, some r =>
    some { white := w, black := bl, result := r,
           termination := (findTag b "Termination").getD "",
           ply_count := (findPly b).getD 0,
           time_control := (findTag b "TimeControl").getD "",
           opening_fen := (findTag b "FEN").getD "" }
  | _, _, _ => none

/-- Embeds the accumulation loop of `parse_pgn` (lines 138-161): blocks
failing the acceptance test are skipped, the rest are kept in order. -/
def parse_pgn (blocks : List PGNBlock) : List GameResult :=
  blocks.filterMap parseBlock

/-- The two file-level fatal conditions of `main`. -/
inductive RunError where
  | inputNotFound
  | emptyInput
deriving DecidableEq

/-- Embeds the control flow of `main` (lines 753-765) after argument
parsing: a missing input path exits before parsing; zero parsed records
exits before any statistics or report; otherwise the parsed records flow on
to `generate_summary_report`, which is the only writer of the report file. -/
def main_outcome (path_exists : Bool) (blocks : List PGNBlock) :
    Except RunError (List GameResult) :=
  if path_exists = false then Except.error RunError.inputNotFound
  else if parse_pgn blocks = [] then Except.error RunError.emptyInput
  else Except.ok (parse_pgn blocks)

/-- One row of the tabular benchmark input of `visualize_results.py`: the
grouping key (`algorithm`) plus the numeric columns by name. -/
structure BenchRow where
  algorithm : String
  entry : String → ℚ

/-- A loaded tabular dataset: its column set and its rows, embedding the
pandas frame of `visualize_results.py`. -/
structure DataFrame where
  columns : List String
  rows : List BenchRow

/-- Arithmetic mean of a list of rationals, 0 when empty. -/
def listMean (xs : List ℚ) : ℚ :=
  if xs.length = 0 then 0 else xs.sum / (xs.length : ℚ)

/-- The distinct grouping keys of a dataset, in sorted order as pandas
`groupby` produces them. -/
def DataFrame.algorithms (df : DataFrame) : List String :=
  ((df.rows.map (fun r => r.algorithm)).dedup).mergeSort (fun a b => decide (a ≤ b))

/-- Embeds `df.groupby('algorithm')[col].mean()` (lines 131 and 155):
pandas raises `KeyError` naming the first column that is absent from the
dataset, first the grouping key, then the selected column; on success it
yields the per-algorithm means. The error value is the missing column's
name. -/
def DataFrame.groupbyMean (df : DataFrame) (col : String) : Except String (List (String × ℚ)) :=
  if "algorithm" ∉ df.columns then Except.error "algorithm"
  else if col ∉ df.columns then Except.error col
  else Except.ok (df.algorithms.map (fun a =>
    (a, listMean ((df.rows.filter (fun r => r.algorithm = a)).map (fun r => r.entry col)))))

/-- The data dependency of `plot_nps_comparison` (line 131): the grouped
mean of the `nps` column. -/
def plot_nps_comparison_data (df : DataFrame) : Except String (List (String × ℚ)) :=
  df.groupbyMean "nps"

/-- The data dependency of `plot_depth_comparison` (line 155): the grouped
mean of the `depth` column. -/
def plot_depth_comparison_data (df : DataFrame) : Except String (List (String × ℚ)) :=
  df.groupbyMean "depth"

/-! ## Helper lemmas -/

/-- A predicate preserved by every step of a left fold holds of its result. -/
theorem foldl_preserves {α β : Type _} (f : β → α → β) (P : β → Prop) :
    ∀ (l : List α) (b : β), P b → (∀ b a, a ∈ l → P b → P (f b a)) → P (l.foldl f b)
  | [], _, hb, _ => hb
  | a :: l, b, hb, hf =>
    foldl_preserves f P l (f b a) (hf b a (List.mem_cons_self a l) hb)
      (fun c x hx hc => hf c x (List.mem_cons_of_mem a hx) hc)

/-- One loop iteration of `calculate_head_to_head` preserves the mirror
relation between a cell and its transpose. -/
theorem h2hStep_symm (players : List String) (g : GameResult) (m : H2HMatrix)
    (hm : ∀ A B, (m A B).wins = (m B A).losses ∧ (m A B).draws = (m B A).draws)
    (A B : String) :
    (h2hStep players m g A B).wins = (h2hStep players m g B A).losses ∧
    (h2hStep players m g A B).draws = (h2hStep players m g B A).draws := by
  have h1 := hm A B
  have h2 := hm B A
  unfold h2hStep
  split
  · split
    · by_cases hAw : A = g.white <;> by_cases hAb : A = g.black <;>
        by_cases hBw : B = g.white <;> by_cases hBb : B = g.black <;>
        simp_all [h2hUpdate]
    · split
      · by_cases hAw : A = g.white <;> by_cases hAb : A = g.black <;>
          by_cases hBw : B = g.white <;> by_cases hBb : B = g.black <;>
          simp_all [h2hUpdate]
      · split
        · by_cases hAw : A = g.white <;> by_cases hAb : A = g.black <;>
            by_cases hBw : B = g.white <;> by_cases hBb : B = g.black <;>
            simp_all [h2hUpdate]
        · exact ⟨h1.1, h1.2⟩
  · exact ⟨h1.1, h1.2⟩

/-- One loop iteration of `calculate_head_to_head` leaves every diagonal
cell untouched, provided the game does not list one participant on both
sides. -/
theorem h2hStep_diag (players : List String) (g : GameResult) (m : H2HMatrix)
    (hg : g.white ≠ g.black) (hm : ∀ A, m A A = H2HCell.zero) (A : String) :
    h2hStep players m g A A = H2HCell.zero := by
  have h := hm A
  unfold h2hStep
  split
  · split
    · by_cases hAw : A = g.white <;> by_cases hAb : A = g.black <;>
        simp_all [h2hUpdate]
    · split
      · by_cases hAw : A = g.white <;> by_cases hAb : A = g.black <;>
          simp_all [h2hUpdate]
      · split
        · by_cases hAw : A = g.white <;> by_cases hAb : A = g.black <;>
            simp_all [h2hUpdate]
        · exact h
  · exact h

/-- Ply accumulation never touches the result tallies. -/
theorem applyPlies_wins (g : GameResult) (s : PlayerStats) : (applyPlies g s).wins = s.wins := by
  unfold applyPlies
  split <;> rfl

/-- Ply accumulation never touches the result tallies. -/
theorem applyPlies_losses (g : GameResult) (s : PlayerStats) :
    (applyPlies g s).losses = s.losses := by
  unfold applyPlies
  split <;> rfl

/-- Ply accumulation never touches the result tallies. -/
theorem applyPlies_draws (g : GameResult) (s : PlayerStats) :
    (applyPlies g s).draws = s.draws := by
  unfold applyPlies
  split <;> rfl

/-- The white-side result dispatch never touches the ply totals. -/
theorem applyResultWhite_total_plies (g : GameResult) (s : PlayerStats) :
    (applyResultWhite g s).total_plies = s.total_plies := by
  unfold applyResultWhite
  split
  · rfl
  · split <;> rfl

/-- The white-side result dispatch never touches the ply totals. -/
theorem applyResultWhite_games_with_plies (g : GameResult) (s : PlayerStats) :
    (applyResultWhite g s).games_with_plies = s.games_with_plies := by
  unfold applyResultWhite
  split
  · rfl
  · split <;> rfl

/-- The black-side result dispatch never touches the ply totals. -/
theorem applyResultBlack_total_plies (g : GameResult) (s : PlayerStats) :
    (applyResultBlack g s).total_plies = s.total_plies := by
  unfold applyResultBlack
  split
  · rfl
  · split <;> rfl

/-- The black-side result dispatch never touches the ply totals. -/
theorem applyResultBlack_games_with_plies (g : GameResult) (s : PlayerStats) :
    (applyResultBlack g s).games_with_plies = s.games_with_plies := by
  unfold applyResultBlack
  split
  · rfl
  · split <;> rfl

/-- Folding one more game is one loop iteration of `calculate_overall_stats`. -/
theorem overall_stats_append (games : List GameResult) (g : GameResult)
    (players : List String) :
    calculate_overall_stats (games ++ [g]) players =
      overallStep players (calculate_overall_stats games players) g := by
  simp [calculate_overall_stats, List.foldl_append]

/-- Folding one more game is one loop iteration of `calculate_head_to_head`. -/
theorem head_to_head_append (games : List GameResult) (g : GameResult)
    (players : List String) :
    calculate_head_to_head (games ++ [g]) players =
      h2hStep players (calculate_head_to_head games players) g := by
  simp [calculate_head_to_head, List.foldl_append]

/-! ## Claim theorems -/

/-- C1: for every list of game records and every ordered pair of distinct
participants (A, B) in the supplied player list, the matrix built by
`calculate_head_to_head` satisfies cell[A][B].wins = cell[B][A].losses and
cell[A][B].draws = cell[B][A].draws. -/
theorem head_to_head_symmetric (games : List GameResult) (players : List String)
    (A B : String) (hA : A ∈ players) (hB : B ∈ players) (hAB : A ≠ B) :
    (calculate_head_to_head games players A B).wins =
      (calculate_head_to_head games players B A).losses ∧
    (calculate_head_to_head games players A B).draws =
      (calculate_head_to_head games players B A).draws := by
  have h : ∀ X Y : String,
      ((calculate_head_to_head games players X Y).wins =
        (calculate_head_to_head games players Y X).losses ∧
      (calculate_head_to_head games players X Y).draws =
        (calculate_head_to_head games players Y X).draws) := by
    apply foldl_preserves (h2hStep players)
      (fun m => ∀ X Y, (m X Y).wins = (m Y X).losses ∧ (m X Y).draws = (m Y X).draws)
    · intro X Y
      exact ⟨rfl, rfl⟩
    · intro m g _ hmodel
      exact h2hStep_symm players g m hmodel
  exact h A B

/-- Witness for C1 at a concrete input. -/
theorem head_to_head_symmetric_witness :
    ("A" : String) ∈ ["A", "B"] ∧ ("B" : String) ∈ ["A", "B"] ∧ ("A" : String) ≠ "B" ∧
    ((calculate_head_to_head [{ white := "A", black := "B", result := "1-0" }]
        ["A", "B"] "A" "B").wins =
      (calculate_head_to_head [{ white := "A", black := "B", result := "1-0" }]
        ["A", "B"] "B" "A").losses ∧
    (calculate_head_to_head [{ white := "A", black := "B", result := "1-0" }]
        ["A", "B"] "A" "B").draws =
      (calculate_head_to_head [{ white := "A", black := "B", result := "1-0" }]
        ["A", "B"] "B" "A").draws) :=
  ⟨by decide, by decide, by decide,
    head_to_head_symmetric [{ white := "A", black := "B", result := "1-0" }] ["A", "B"]
      "A" "B" (by decide) (by decide) (by decide)⟩

/-- C4 counterexample: a record naming the same participant on both sides
does populate the self-pair cell — one "1-0" game between "A" and "A"
leaves cell[A][A] at {wins := 1, draws := 0, losses := 1}, not the zero
sentinel. -/
theorem self_pair_populated_counterexample :
    calculate_head_to_head [{ white := "A", black := "A", result := "1-0" }] ["A"] "A" "A" ≠
      H2HCell.zero := by decide

/-- C4 (amended): provided no record names the same participant on both
sides, the self-pair cell of `calculate_head_to_head` stays at the zero
sentinel {wins := 0, draws := 0, losses := 0}, and the heatmap renders
every diagonal entry as the neutral midpoint 50. -/
theorem self_pair_sentinel (games : List GameResult) (players : List String)
    (hg : ∀ g ∈ games, g.white ≠ g.black) (A : String) (hA : A ∈ players) (i : Nat) :
    calculate_head_to_head games players A A = H2HCell.zero ∧
    heatmap_value games players i i = 50 := by
  constructor
  · have h : ∀ X : String, calculate_head_to_head games players X X = H2HCell.zero := by
      apply foldl_preserves (h2hStep players) (fun m => ∀ X, m X X = H2HCell.zero)
      · intro X
        rfl
      · intro m g hmem hmodel
        exact h2hStep_diag players g m (hg g hmem) hmodel
    exact h A
  · simp [heatmap_value]

/-- Witness for C4 (amended) at a concrete input. -/
theorem self_pair_sentinel_witness :
    (∀ g ∈ [({ white := "A", black := "B", result := "1-0" } : GameResult)],
      g.white ≠ g.black) ∧ ("A" : String) ∈ ["A", "B"] ∧
    (calculate_head_to_head [{ white := "A", black := "B", result := "1-0" }]
      ["A", "B"] "A" "A" = H2HCell.zero ∧
    heatmap_value [{ white := "A", black := "B", result := "1-0" }] ["A", "B"] 0 0 = 50) :=
  ⟨by decide, by decide,
    self_pair_sentinel [{ white := "A", black := "B", result := "1-0" }] ["A", "B"]
      (by decide) "A" (by decide) 0⟩

/-- C2 counterexample: a record with the unrecognized result string "*"
between two listed participants contributes zero games — not one — to each
of the two pairwise perspectives: both cells stay empty. -/
theorem pairwise_unrecognized_counterexample :
    cellTotal (calculate_head_to_head [{ white := "A", black := "B", result := "*" }]
      ["A", "B"] "A" "B") = 0 ∧
    cellTotal (calculate_head_to_head [{ white := "A", black := "B", result := "*" }]
      ["A", "B"] "B" "A") = 0 := by decide

/-- C2 (amended): for a record between two distinct listed participants
whose result string is one of the three literals "1-0", "0-1", "1/2-1/2",
one aggregation pass updates both mirrored cells together — one win to one
side with one loss to the other, or one draw to each — so the record adds
exactly one game to each of the two pairwise perspectives; a record with
any other result string leaves the whole pairwise matrix unchanged.
(Per-participant statistics, by contrast, count such a record as a draw for
both sides; see the C3 theorem.) -/
theorem pairwise_update_per_record (games : List GameResult) (g : GameResult)
    (players : List String) (hw : g.white ∈ players) (hb : g.black ∈ players)
    (hne : g.white ≠ g.black) :
    (g.result = "1-0" →
      calculate_head_to_head (games ++ [g]) players g.white g.black =
        (fun c => {c with wins := c.wins + 1})
          (calculate_head_to_head games players g.white g.black) ∧
      calculate_head_to_head (games ++ [g]) players g.black g.white =
        (fun c => {c with losses := c.losses + 1})
          (calculate_head_to_head games players g.black g.white)) ∧
    (g.result = "0-1" →
      calculate_head_to_head (games ++ [g]) players g.white g.black =
        (fun c => {c with losses := c.losses + 1})
          (calculate_head_to_head games players g.white g.black) ∧
      calculate_head_to_head (games ++ [g]) players g.black g.white =
        (fun c => {c with wins := c.wins + 1})
          (calculate_head_to_head games players g.black g.white)) ∧
    (g.result = "1/2-1/2" →
      calculate_head_to_head (games ++ [g]) players g.white g.black =
        (fun c => {c with draws := c.draws + 1})
          (calculate_head_to_head games players g.white g.black) ∧
      calculate_head_to_head (games ++ [g]) players g.black g.white =
        (fun c => {c with draws := c.draws + 1})
          (calculate_head_to_head games players g.black g.white)) ∧
    (g.result = "1-0" ∨ g.result = "0-1" ∨ g.result = "1/2-1/2" →
      cellTotal (calculate_head_to_head (games ++ [g]) players g.white g.black) =
        cellTotal (calculate_head_to_head games players g.white g.black) + 1 ∧
      cellTotal (calculate_head_to_head (games ++ [g]) players g.black g.white) =
        cellTotal (calculate_head_to_head games players g.black g.white) + 1) ∧
    (g.result ≠ "1-0" → g.result ≠ "0-1" → g.result ≠ "1/2-1/2" →
      calculate_head_to_head (games ++ [g]) players =
        calculate_head_to_head games players) := by
  have hstep : calculate_head_to_head (games ++ [g]) players =
      h2hStep players (calculate_head_to_head games players) g := by
    simp [calculate_head_to_head, List.foldl_append]
  set m := calculate_head_to_head games players with hm
  refine ⟨?_, ?_, ?_, ?_, ?_⟩
  · intro hr
    rw [hstep]
    constructor <;> simp [h2hStep, h2hUpdate, hw, hb, hr, hne, hne.symm]
  · intro hr
    rw [hstep]
    constructor <;> simp [h2hStep, h2hUpdate, hw, hb, hr, hne, hne.symm]
  · intro hr
    rw [hstep]
    constructor <;> simp [h2hStep, h2hUpdate, hw, hb, hr, hne, hne.symm]
  · intro hr
    rw [hstep]
    rcases hr with hr | hr | hr <;>
      constructor <;>
      simp [h2hStep, h2hUpdate, cellTotal, hw, hb, hr, hne, hne.symm] <;> omega
  · intro h1 h2 h3
    rw [hstep]
    simp [h2hStep, h1, h2, h3]

/-- Witness for C2 (amended) at a concrete input. -/
theorem pairwise_update_per_record_witness :
    calculate_head_to_head [{ white := "A", black := "B", result := "1-0" }] ["A", "B"]
        "A" "B" =
      (fun c => {c with wins := c.wins + 1})
        (calculate_head_to_head [] ["A", "B"] "A" "B") ∧
    calculate_head_to_head [{ white := "A", black := "B", result := "1-0" }] ["A", "B"]
        "B" "A" =
      (fun c => {c with losses := c.losses + 1})
        (calculate_head_to_head [] ["A", "B"] "B" "A") :=
  (pairwise_update_per_record [] { white := "A", black := "B", result := "1-0" } ["A", "B"]
    (by decide) (by decide) (by decide)).1 rfl

/-- C3: exactly the literal "1-0" is counted as a white win and exactly
"0-1" as a black win by `calculate_overall_stats`; every other result
string — "1/2-1/2" or any unrecognized string such as "*" — is counted as
a draw for both participants, crediting 0.5 score to each. -/
theorem result_string_decoding (games : List GameResult) (g : GameResult)
    (players : List String) (hw : g.white ∈ players) (hb : g.black ∈ players)
    (hne : g.white ≠ g.black) :
    ((calculate_overall_stats (games ++ [g]) players g.white).wins =
        (calculate_overall_stats games players g.white).wins + 1 ↔ g.result = "1-0") ∧
    ((calculate_overall_stats (games ++ [g]) players g.black).wins =
        (calculate_overall_stats games players g.black).wins + 1 ↔ g.result = "0-1") ∧
    ((calculate_overall_stats (games ++ [g]) players g.white).losses =
        (calculate_overall_stats games players g.white).losses + 1 ↔ g.result = "0-1") ∧
    ((calculate_overall_stats (games ++ [g]) players g.black).losses =
        (calculate_overall_stats games players g.black).losses + 1 ↔ g.result = "1-0") ∧
    (g.result ≠ "1-0" → g.result ≠ "0-1" →
      (calculate_overall_stats (games ++ [g]) players g.white).draws =
        (calculate_overall_stats games players g.white).draws + 1 ∧
      (calculate_overall_stats (games ++ [g]) players g.black).draws =
        (calculate_overall_stats games players g.black).draws + 1 ∧
      (calculate_overall_stats (games ++ [g]) players g.white).score =
        (calculate_overall_stats games players g.white).score + 1 / 2 ∧
      (calculate_overall_stats (games ++ [g]) players g.black).score =
        (calculate_overall_stats games players g.black).score + 1 / 2) := by
  have hstep := overall_stats_append games g players
  set s := calculate_overall_stats games players with hs
  have htw : calculate_overall_stats (games ++ [g]) players g.white =
      applyPlies g (applyResultWhite g (s g.white)) := by
    rw [hstep]
    simp [overallStep, statsUpdate, hw, hb, hne, Ne.symm hne]
  have htb : calculate_overall_stats (games ++ [g]) players g.black =
      applyPlies g (applyResultBlack g (s g.black)) := by
    rw [hstep]
    simp [overallStep, statsUpdate, hw, hb, hne, Ne.symm hne]
  rw [htw, htb]
  by_cases hr1 : g.result = "1-0" <;> by_cases hr2 : g.result = "0-1"
  · exact absurd (hr1 ▸ hr2) (by decide)
  · simp [applyResultWhite, applyResultBlack, applyPlies_wins, applyPlies_losses,
      applyPlies_draws, hr1, hr2]
  · simp [applyResultWhite, applyResultBlack, applyPlies_wins, applyPlies_losses,
      applyPlies_draws, hr1, hr2]
  · refine ⟨?_, ?_, ?_, ?_, ?_⟩ <;>
      simp [applyResultWhite, applyResultBlack, applyPlies_wins, applyPlies_losses,
        applyPlies_draws, hr1, hr2, PlayerStats.score]
    constructor <;> ring

/-- Witness for C3 at a concrete input with the unrecognized result "*". -/
theorem result_string_decoding_witness :
    (("A" : String) ∈ ["A", "B"]) ∧ (("B" : String) ∈ ["A", "B"]) ∧
    ("A" : String) ≠ "B" ∧
    ((calculate_overall_stats [{ white := "A", black := "B", result := "*" }]
        ["A", "B"] "A").draws =
      (calculate_overall_stats [] ["A", "B"] "A").draws + 1 ∧
    (calculate_overall_stats [{ white := "A", black := "B", result := "*" }]
        ["A", "B"] "B").draws =
      (calculate_overall_stats [] ["A", "B"] "B").draws + 1 ∧
    (calculate_overall_stats [{ white := "A", black := "B", result := "*" }]
        ["A", "B"] "A").score =
      (calculate_overall_stats [] ["A", "B"] "A").score + 1 / 2 ∧
    (calculate_overall_stats [{ white := "A", black := "B", result := "*" }]
        ["A", "B"] "B").score =
      (calculate_overall_stats [] ["A", "B"] "B").score + 1 / 2) :=
  ⟨by decide, by decide, by decide,
    (result_string_decoding [] { white := "A", black := "B", result := "*" } ["A", "B"]
      (by decide) (by decide) (by decide)).2.2.2.2 (by decide) (by decide)⟩

/-- C10: a record naming the same listed participant on both sides credits
that participant with both perspectives in one pass of
`calculate_overall_stats`: one win plus one loss for a decisive result, two
draws otherwise — so its games grow by 2 and its score by exactly 1 — and,
when the record carries a positive ply count, its total_plies grows by
twice that count and its games_with_plies by 2. -/
theorem self_play_record (games : List GameResult) (g : GameResult)
    (players : List String) (hww : g.white = g.black) (hA : g.white ∈ players) :
    (calculate_overall_stats (games ++ [g]) players g.white).games =
      (calculate_overall_stats games players g.white).games + 2 ∧
    (calculate_overall_stats (games ++ [g]) players g.white).score =
      (calculate_overall_stats games players g.white).score + 1 ∧
    (g.result = "1-0" ∨ g.result = "0-1" →
      (calculate_overall_stats (games ++ [g]) players g.white).wins =
        (calculate_overall_stats games players g.white).wins + 1 ∧
      (calculate_overall_stats (games ++ [g]) players g.white).losses =
        (calculate_overall_stats games players g.white).losses + 1) ∧
    (g.result ≠ "1-0" → g.result ≠ "0-1" →
      (calculate_overall_stats (games ++ [g]) players g.white).draws =
        (calculate_overall_stats games players g.white).draws + 2) ∧
    (g.ply_count > 0 →
      (calculate_overall_stats (games ++ [g]) players g.white).total_plies =
        (calculate_overall_stats games players g.white).total_plies + 2 * g.ply_count ∧
      (calculate_overall_stats (games ++ [g]) players g.white).games_with_plies =
        (calculate_overall_stats games players g.white).games_with_plies + 2) := by
  have hbmem : g.black ∈ players := hww ▸ hA
  have ht : calculate_overall_stats (games ++ [g]) players g.white =
      applyPlies g (applyResultBlack g (applyPlies g (applyResultWhite g
        (calculate_overall_stats games players g.white)))) := by
    rw [overall_stats_append]
    simp [overallStep, statsUpdate, hA, hbmem, hww]
  set s := calculate_overall_stats games players with hs
  rw [ht]
  refine ⟨?_, ?_, ?_, ?_, ?_⟩
  · by_cases hr1 : g.result = "1-0" <;> by_cases hr2 : g.result = "0-1" <;>
      simp [PlayerStats.games, applyPlies_wins, applyPlies_losses, applyPlies_draws,
        applyResultWhite, applyResultBlack, hr1, hr2] <;> omega
  · by_cases hr1 : g.result = "1-0" <;> by_cases hr2 : g.result = "0-1" <;>
      simp [PlayerStats.score, applyPlies_wins, applyPlies_losses, applyPlies_draws,
        applyResultWhite, applyResultBlack, hr1, hr2] <;>
      ring
  · intro hr
    rcases hr with hr | hr <;>
      simp [applyPlies_wins, applyPlies_losses, applyResultWhite, applyResultBlack, hr]
  · intro hr1 hr2
    simp [applyPlies_draws, applyResultWhite, applyResultBlack, hr1, hr2]
  · intro hp
    simp [applyPlies, hp, applyResultWhite_total_plies, applyResultWhite_games_with_plies,
      applyResultBlack_total_plies, applyResultBlack_games_with_plies]
    omega

/-- Witness for C10 at a concrete input: one self-play draw with 30 plies. -/
theorem self_play_record_witness :
    ((⟨"A", "A", "*", "", 30, "", ""⟩ : GameResult).white =
      (⟨"A", "A", "*", "", 30, "", ""⟩ : GameResult).black) ∧
    ((⟨"A", "A", "*", "", 30, "", ""⟩ : GameResult).white ∈ ["A"]) ∧
    ((calculate_overall_stats [⟨"A", "A", "*", "", 30, "", ""⟩] ["A"] "A").games =
      (calculate_overall_stats [] ["A"] "A").games + 2 ∧
    (calculate_overall_stats [⟨"A", "A", "*", "", 30, "", ""⟩] ["A"] "A").score =
      (calculate_overall_stats [] ["A"] "A").score + 1 ∧
    (calculate_overall_stats [⟨"A", "A", "*", "", 30, "", ""⟩] ["A"] "A").total_plies =
      (calculate_overall_stats [] ["A"] "A").total_plies + 2 * 30 ∧
    (calculate_overall_stats [⟨"A", "A", "*", "", 30, "", ""⟩] ["A"] "A").games_with_plies =
      (calculate_overall_stats [] ["A"] "A").games_with_plies + 2) := by
  have h := self_play_record [] (⟨"A", "A", "*", "", 30, "", ""⟩ : GameResult)
    ["A"] (by decide) (by decide)
  exact ⟨by decide, by decide, h.1, h.2.1, (h.2.2.2.2 (by decide)).1, (h.2.2.2.2 (by decide)).2⟩

/-- C7: for every `PlayerStats` value, games = wins + losses + draws,
score = wins + 0.5·draws, score_percent is 0 for zero games and
100·score/games otherwise, and score_percent always lies in [0, 100]. -/
theorem player_stats_invariants (s : PlayerStats) :
    s.games = s.wins + s.losses + s.draws ∧
    s.score = (s.wins : ℚ) + (1 / 2) * (s.draws : ℚ) ∧
    (s.games = 0 → s.score_percent = 0) ∧
    (0 < s.games → s.score_percent = 100 * s.score / (s.games : ℚ)) ∧
    0 ≤ s.score_percent ∧ s.score_percent ≤ 100 := by
  have hscore_nonneg : (0 : ℚ) ≤ s.score := by
    unfold PlayerStats.score
    positivity
  have hscore_le : s.score ≤ (s.games : ℚ) := by
    unfold PlayerStats.score PlayerStats.games
    push_cast
    have hl : (0 : ℚ) ≤ (s.losses : ℚ) := by positivity
    have hd : (0 : ℚ) ≤ (s.draws : ℚ) := by positivity
    linarith
  refine ⟨rfl, rfl, ?_, ?_, ?_, ?_⟩
  · intro h
    simp [PlayerStats.score_percent, h]
  · intro h
    rw [PlayerStats.score_percent, if_neg (by omega)]
    ring
  · unfold PlayerStats.score_percent
    split
    · exact le_refl 0
    · positivity
  · unfold PlayerStats.score_percent
    split
    · norm_num
    · have hg : (0 : ℚ) < (s.games : ℚ) := by
        have : s.games ≠ 0 := by assumption
        exact_mod_cast Nat.pos_of_ne_zero this
      have h1 : s.score / (s.games : ℚ) ≤ 1 := (div_le_one hg).mpr hscore_le
      linarith

/-- Witness for C7 at a concrete input: 2 wins, 1 loss, 1 draw. -/
theorem player_stats_invariants_witness :
    0 < (⟨"A", 2, 1, 1, 0, 0⟩ : PlayerStats).games ∧
    ((⟨"A", 2, 1, 1, 0, 0⟩ : PlayerStats).score_percent =
      100 * (⟨"A", 2, 1, 1, 0, 0⟩ : PlayerStats).score /
        (((⟨"A", 2, 1, 1, 0, 0⟩ : PlayerStats).games : ℚ)) ∧
    0 ≤ (⟨"A", 2, 1, 1, 0, 0⟩ : PlayerStats).score_percent ∧
    (⟨"A", 2, 1, 1, 0, 0⟩ : PlayerStats).score_percent ≤ 100) :=
  ⟨by decide,
    (player_stats_invariants ⟨"A", 2, 1, 1, 0, 0⟩).2.2.2.1 (by decide),
    (player_stats_invariants ⟨"A", 2, 1, 1, 0, 0⟩).2.2.2.2.1,
    (player_stats_invariants ⟨"A", 2, 1, 1, 0, 0⟩).2.2.2.2.2⟩

/-- C8: `parse_pgn` accepts a block exactly when it carries the three
mandatory fields White, Black and Result (a matchable tag with a nonempty
value); a block lacking any of them is silently skipped while the rest of
the batch is kept, and in an accepted block each optional field defaults to
the empty string resp. 0 when absent. -/
theorem parser_mandatory_fields (b : PGNBlock) (blocks1 blocks2 : List PGNBlock) :
    ((∃ g, parseBlock b = some g) ↔
      ((∃ t ∈ b.tags, t.1 = "White" ∧ t.2 ≠ "") ∧
       (∃ t ∈ b.tags, t.1 = "Black" ∧ t.2 ≠ "") ∧
       (∃ t ∈ b.tags, t.1 = "Result" ∧ t.2 ≠ ""))) ∧
    (parseBlock b = none →
      parse_pgn (blocks1 ++ b :: blocks2) = parse_pgn blocks1 ++ parse_pgn blocks2) ∧
    (∀ g, parseBlock b = some g →
      ((findTag b "Termination" = none → g.termination = "") ∧
       (findPly b = none → g.ply_count = 0) ∧
       (findTag b "TimeControl" = none → g.time_control = "") ∧
       (findTag b "FEN" = none → g.opening_fen = ""))) := by
  have hfind : ∀ k : String, (findTag b k).isSome ↔ ∃ t ∈ b.tags, t.1 = k ∧ t.2 ≠ "" := by
    intro k
    simp [findTag, List.find?_isSome]
  refine ⟨?_, ?_, ?_⟩
  · rw [← hfind, ← hfind, ← hfind]
    cases hW : findTag b "White" <;> cases hB : findTag b "Black" <;>
      cases hR : findTag b "Result" <;> simp [parseBlock, hW, hB, hR]
  · intro hnone
    simp [parse_pgn, hnone]
  · intro g hg
    cases hW : findTag b "White" <;> cases hB : findTag b "Black" <;>
      cases hR : findTag b "Result" <;> simp [parseBlock, hW, hB, hR] at hg
    subst hg
    refine ⟨fun h => ?_, fun h => ?_, fun h => ?_, fun h => ?_⟩ <;> simp [h]

/-- Witness for C8 at concrete inputs: a complete block between two
incomplete ones; the incomplete block (no Result tag) is skipped and the
complete one keeps its defaults. -/
theorem parser_mandatory_fields_witness :
    (parseBlock ⟨[("White", "A")]⟩ = none →
      parse_pgn ([⟨[("White", "A")]⟩] ++ ⟨[("White", "A")]⟩ :: [⟨[("White", "A"),
        ("Black", "B"), ("Result", "1-0")]⟩]) =
      parse_pgn [⟨[("White", "A")]⟩] ++ parse_pgn [⟨[("White", "A"), ("Black", "B"),
        ("Result", "1-0")]⟩]) ∧
    parseBlock ⟨[("White", "A")]⟩ = none ∧
    (∀ g, parseBlock ⟨[("White", "A"), ("Black", "B"), ("Result", "1-0")]⟩ = some g →
      ((findTag ⟨[("White", "A"), ("Black", "B"), ("Result", "1-0")]⟩ "Termination" = none →
        g.termination = "") ∧
       (findPly ⟨[("White", "A"), ("Black", "B"), ("Result", "1-0")]⟩ = none →
        g.ply_count = 0) ∧
       (findTag ⟨[("White", "A"), ("Black", "B"), ("Result", "1-0")]⟩ "TimeControl" = none →
        g.time_control = "") ∧
       (findTag ⟨[("White", "A"), ("Black", "B"), ("Result", "1-0")]⟩ "FEN" = none →
        g.opening_fen = ""))) :=
  ⟨(parser_mandatory_fields ⟨[("White", "A")]⟩ [⟨[("White", "A")]⟩]
      [⟨[("White", "A"), ("Black", "B"), ("Result", "1-0")]⟩]).2.1,
   by decide,
   (parser_mandatory_fields ⟨[("White", "A"), ("Black", "B"), ("Result", "1-0")]⟩ [] []).2.2⟩

/-- C9: the run fails — with a diagnostic and no report — in exactly two
file-level cases: the input path does not exist (InputNotFound), or parsing
yields zero valid records (EmptyInput); in every other case the parsed
records flow on to report generation. -/
theorem main_failure_cases (path_exists : Bool) (blocks : List PGNBlock) :
    (main_outcome path_exists blocks = Except.error RunError.inputNotFound ↔
      path_exists = false) ∧
    (main_outcome path_exists blocks = Except.error RunError.emptyInput ↔
      (path_exists = true ∧ parse_pgn blocks = [])) ∧
    (path_exists = true → parse_pgn blocks ≠ [] →
      main_outcome path_exists blocks = Except.ok (parse_pgn blocks)) := by
  cases path_exists <;> by_cases h : parse_pgn blocks = [] <;> simp [main_outcome, h]

/-- Witness for C9 at a concrete input: one complete block on an existing
path proceeds to the report with the parsed record. -/
theorem main_failure_cases_witness :
    (true = true) ∧
    parse_pgn [⟨[("White", "A"), ("Black", "B"), ("Result", "1-0")]⟩] ≠ [] ∧
    main_outcome true [⟨[("White", "A"), ("Black", "B"), ("Result", "1-0")]⟩] =
      Except.ok (parse_pgn [⟨[("White", "A"), ("Black", "B"), ("Result", "1-0")]⟩]) :=
  ⟨rfl, by decide,
    (main_failure_cases true [⟨[("White", "A"), ("Black", "B"), ("Result", "1-0")]⟩]).2.2
      rfl (by decide)⟩

/-- C5: on a tabular dataset lacking the `nps` column, the depth-based
aggregation succeeds while the NPS aggregation fails with an error naming
exactly the absent column, leaving the unrelated aggregation unaffected. -/
theorem missing_column_isolated (df : DataFrame) (halg : "algorithm" ∈ df.columns)
    (hdepth : "depth" ∈ df.columns) (hnps : "nps" ∉ df.columns) :
    (∃ res, plot_depth_comparison_data df = Except.ok res) ∧
    plot_nps_comparison_data df = Except.error "nps" := by
  constructor
  · refine ⟨df.algorithms.map (fun a =>
      (a, listMean ((df.rows.filter (fun r => r.algorithm = a)).map
        (fun r => r.entry "depth")))), ?_⟩
    simp [plot_depth_comparison_data, DataFrame.groupbyMean, halg, hdepth]
  · simp [plot_nps_comparison_data, DataFrame.groupbyMean, halg, hnps]

/-- Witness for C5 at a concrete dataset with columns algorithm and depth
but no nps column. -/
theorem missing_column_isolated_witness :
    ("algorithm" : String) ∈ ["algorithm", "depth"] ∧
    ("depth" : String) ∈ ["algorithm", "depth"] ∧
    ("nps" : String) ∉ ["algorithm", "depth"] ∧
    ((∃ res, plot_depth_comparison_data ⟨["algorithm", "depth"], []⟩ = Except.ok res) ∧
      plot_nps_comparison_data ⟨["algorithm", "depth"], []⟩ = Except.error "nps") :=
  ⟨by decide, by decide, by decide,
    missing_column_isolated ⟨["algorithm", "depth"], []⟩ (by decide) (by decide) (by decide)⟩

/-- In a pairwise-related list, every element is related to the last one,
for a reflexive relation. -/
theorem rel_getLastD_of_pairwise {α : Type _} {R : α → α → Prop} (hrefl : ∀ b, R b b)
    (l : List α) : ∀ (d : α), l.Pairwise R → ∀ a ∈ l, R a (l.getLastD d) := by
  induction l with
  | nil =>
    intro d _ a ha
    exact absurd ha (List.not_mem_nil a)
  | cons x t ih =>
    intro d hp a ha
    rw [List.getLastD_cons]
    have hp' := List.pairwise_cons.mp hp
    rcases List.mem_cons.mp ha with rfl | hat
    · cases t with
      | nil => exact hrefl a
      | cons y t2 =>
        have hmem := List.getLastD_mem_cons (y :: t2) a
        rcases List.mem_cons.mp hmem with heq | hmem2
        · rw [heq]
          exact hrefl a
        · exact hp'.1 _ hmem2
    · cases t with
      | nil => exact absurd hat (List.not_mem_nil a)
      | cons y t2 => exact ih x hp'.2 a hat

/-- C6: the total ranking sorts participants by score_percent descending
and is stable — participants with equal score_percent keep their order
from the participant enumeration, with no secondary tiebreak — and the
best resp. worst participant of the report are the first resp. last entry
of this ranking, a maximum resp. minimum of score_percent. -/
theorem total_ranking (stats : String → PlayerStats) (algorithms : List String) :
    (sorted_algos stats algorithms).Pairwise
      (fun a b => (stats b).score_percent ≤ (stats a).score_percent) ∧
    (sorted_algos stats algorithms).Perm algorithms ∧
    (∀ v : ℚ, (sorted_algos stats algorithms).filter
        (fun a => decide ((stats a).score_percent = v)) =
      algorithms.filter (fun a => decide ((stats a).score_percent = v))) ∧
    (algorithms ≠ [] →
      (∀ a ∈ algorithms,
        (stats a).score_percent ≤ (stats (best_algo stats algorithms)).score_percent) ∧
      (∀ a ∈ algorithms,
        (stats (worst_algo stats algorithms)).score_percent ≤ (stats a).score_percent)) := by
  simp only [sorted_algos, best_algo, worst_algo]
  set le := fun a b : String =>
    decide ((stats b).score_percent ≤ (stats a).score_percent) with hle
  have htrans : ∀ a b c, le a b → le b c → le a c := by
    intro a b c h1 h2
    simp only [hle, decide_eq_true_eq] at h1 h2 ⊢
    exact le_trans h2 h1
  have htotal : ∀ a b, le a b || le b a := by
    intro a b
    simp only [hle, Bool.or_eq_true, decide_eq_true_eq]
    exact le_total _ _
  have hperm : (algorithms.mergeSort le).Perm algorithms := List.mergeSort_perm algorithms le
  have hpairB : (algorithms.mergeSort le).Pairwise (fun a b => le a b) :=
    List.sorted_mergeSort htrans htotal algorithms
  have hpair : (algorithms.mergeSort le).Pairwise
      (fun a b => (stats b).score_percent ≤ (stats a).score_percent) := by
    refine hpairB.imp ?_
    intro a b h
    simpa [hle] using h
  refine ⟨hpair, hperm, ?_, ?_⟩
  · intro v
    set p := fun a : String => decide ((stats a).score_percent = v) with hp
    have hsubl : (algorithms.filter p).Sublist algorithms := List.filter_sublist algorithms
    have hpw : (algorithms.filter p).Pairwise (fun a b => le a b) := by
      apply List.pairwise_of_forall_mem_list
      intro a ha b hb
      have hpa := (List.mem_filter.mp ha).2
      have hpb := (List.mem_filter.mp hb).2
      simp only [hp, decide_eq_true_eq] at hpa hpb
      simp only [hle, decide_eq_true_eq, hpa, hpb]
      exact le_refl v
    have hsub2 : (algorithms.filter p).Sublist (algorithms.mergeSort le) :=
      List.sublist_mergeSort htrans htotal hpw hsubl
    have hfself : (algorithms.filter p).filter p = algorithms.filter p :=
      List.filter_eq_self.mpr (fun a ha => (List.mem_filter.mp ha).2)
    have hsub3 : (algorithms.filter p).Sublist ((algorithms.mergeSort le).filter p) := by
      have h := hsub2.filter p
      rwa [hfself] at h
    have hlen : ((algorithms.mergeSort le).filter p).length = (algorithms.filter p).length :=
      (hperm.filter p).length_eq
    exact (hsub3.eq_of_length hlen.symm).symm
  · intro hne
    have hsne : algorithms.mergeSort le ≠ [] := by
      intro h
      rw [h] at hperm
      exact hne (List.perm_nil.mp hperm.symm)
    obtain ⟨x, t, hxt⟩ := List.exists_cons_of_ne_nil hsne
    constructor
    · intro a ha
      have ham : a ∈ algorithms.mergeSort le := List.mem_mergeSort.mpr ha
      rw [hxt] at ham hpair ⊢
      rcases List.mem_cons.mp ham with rfl | hat
      · exact le_refl _
      · exact List.rel_of_pairwise_cons hpair hat
    · intro a ha
      have ham : a ∈ algorithms.mergeSort le := List.mem_mergeSort.mpr ha
      exact rel_getLastD_of_pairwise
        (R := fun a b => (stats b).score_percent ≤ (stats a).score_percent)
        (fun b => le_refl _) (algorithms.mergeSort le) "" hpair a ham

/-- Witness for C6 at a concrete input: two participants with all-zero
stats, hence tied score_percent. -/
theorem total_ranking_witness :
    (["B", "A"] : List String) ≠ [] ∧
    ((∀ a ∈ (["B", "A"] : List String), (PlayerStats.init a).score_percent ≤
        (PlayerStats.init (best_algo PlayerStats.init ["B", "A"])).score_percent) ∧
      (∀ a ∈ (["B", "A"] : List String),
        (PlayerStats.init (worst_algo PlayerStats.init ["B", "A"])).score_percent ≤
        (PlayerStats.init a).score_percent)) :=
  ⟨by decide, (total_ranking PlayerStats.init ["B", "A"]).2.2.2 (by decide)⟩

end Aether
